import Mathlib

/-!
Shallow embedding of `src/gRPC/axum-tonic` (a dual-protocol tonic + axum
server) and proofs of the specification's claims about it.

The repository's own code is `src/gRPC/axum-tonic/src/main.rs` (the greeter
service, the HTML handler and the server composition) and
`src/gRPC/axum-tonic/build.rs` (descriptor generation).  Pure functions of
the source are embedded directly; behaviour supplied by the libraries
(tonic routing, protobuf decoding, reflection, socket binding) is modelled
from the spec and each such definition carries a doc comment saying so.
-/

namespace AxumTonic

/-! ## Message contract (src/main.rs, `pub mod helloworld`) -/

/-- Request message of the `helloworld` contract: one string field `name`
(field number 1 in the schema). -/
structure HelloRequest where
  name : String
deriving DecidableEq, Repr

/-- Reply message of the `helloworld` contract: one string field `message`. -/
structure HelloReply where
  message : String
deriving DecidableEq, Repr

/-- gRPC status codes relevant to this server (tonic `Code`). -/
inductive Code where
  | ok
  | invalidArgument
  | unimplemented
  | internal
deriving DecidableEq, Repr

/-- tonic `Status`: a code together with a diagnostic message. -/
structure Status where
  code : Code
  message : String
deriving DecidableEq, Repr

/-- tonic `Request<T>` wrapper; `into_inner` is the projection `inner`. -/
structure GRPC_Request (α : Type) where
  inner : α
deriving DecidableEq, Repr

/-- tonic `Response<T>` wrapper. -/
structure GRPC_Response (α : Type) where
  inner : α
deriving DecidableEq, Repr

/-! ## Service implementation (src/main.rs, `MyGreeter`) -/

/-- The stateless handler type: `pub struct MyGreeter {}` has no fields. -/
structure MyGreeter where
deriving DecidableEq, Repr

/-- `MyGreeter::default()`. -/
def MyGreeter.default : MyGreeter := ⟨⟩

/-- Embedding of `MyGreeter::say_hello` (src/main.rs lines 22-34): builds
`HelloReply { message: format!("Hello {}!", request.into_inner().name) }`
and returns `Ok`.  The `println!` side effect is non-contractual and not
modelled. -/
def say_hello (_self : MyGreeter) (request : GRPC_Request HelloRequest) :
    Except Status (GRPC_Response HelloReply) :=
  Except.ok ⟨⟨"Hello " ++ request.inner.name ++ "!"⟩⟩

/-! ## HTTP surface (src/main.rs, `handler` and the axum route `GET /`) -/

/-- axum `Html<&'static str>` wrapper. -/
structure Html where
  body : String
deriving DecidableEq, Repr

/-- Embedding of `async fn handler()` (src/main.rs lines 37-39). -/
def handler : Html := ⟨"<h1>Hello, World!</h1>"⟩

/-- A plain HTTP response: status code, optional `Content-Type` header
value and body. -/
structure HttpResponse where
  status : Nat
  contentType : Option String
  body : String
deriving DecidableEq, Repr

/-- How axum turns an `Html` value into a response: status 200 with header
`Content-Type: text/html; charset=utf-8` and the wrapped string as body. -/
def Html.intoResponse (h : Html) : HttpResponse :=
  ⟨200, some "text/html; charset=utf-8", h.body⟩

/-- Media type of a `Content-Type` header value: the part before any
parameter (before the first `;`). -/
def mediaType (s : String) : String :=
  (s.toList.takeWhile (fun c => c ≠ ';')).asString

/-- An inbound plain-HTTP request as seen by the router: method, path,
query string and headers. -/
structure HttpRequest where
  method : String
  path : String
  query : String
  headers : List (String × String)

/-- Which handler a request was dispatched to. -/
inductive HandlerId where
  | sayHello
  | htmlRoot
  | unmatched
deriving DecidableEq, Repr

/-- Modelled from the spec: axum's standard not-found response for
requests matching no route ("Unmatched requests receive a standard
not-found response", spec section 4.3) — status 404, empty body. -/
def notFoundResponse : HttpResponse := ⟨404, none, ""⟩

/-- Modelled from the spec: the HTTP router's static route table holds one
entry, `GET /` mapped to `handler` (spec section 4.3; src/main.rs line 49
`.route("/", get(handler))`).  Matching is an exact comparison of the
(method, path) pair; query string and headers are not consulted. -/
def routeHttp (req : HttpRequest) : HandlerId × HttpResponse :=
  if req.method = "GET" ∧ req.path = "/" then
    (HandlerId.htmlRoot, handler.intoResponse)
  else
    (HandlerId.unmatched, notFoundResponse)

/-! ## Wire decoding of `HelloRequest` (generated by `tonic::include_proto!`,
not in src/) -/

/-- A decoded protobuf wire value: either a varint or a length-delimited
string payload. -/
inductive WireValue where
  | varint (n : Nat)
  | lenBytes (s : String)
deriving DecidableEq, Repr

/-- Modelled from the spec: the protobuf decoding the generated
`HelloRequest` code performs (the generated code is produced by
`tonic::include_proto!` and is not under src/).  A frame is a list of
(field number, wire value) pairs; field 1 with a length-delimited payload
sets `name` (last occurrence wins), field 1 with a different wire type is
a decode error, unknown fields are skipped, and an absent field 1 leaves
`name` at its default, the empty string (spec section 3: "absent name is
treated as empty string"). -/
def decodeHelloRequest (fields : List (Nat × WireValue)) : Option HelloRequest :=
  fields.foldlM
    (fun acc f =>
      if f.1 = 1 then
        match f.2 with
        | WireValue.lenBytes s => some ⟨s⟩
        | WireValue.varint _ => none
      else
        some acc)
    ⟨""⟩

/-! ## RPC dispatch and the composed listener (tonic/axum library code,
not in src/) -/

/-- The (service, method) pairs registered in `main`
(src/main.rs line 47: one `add_service` call for the greeter). -/
def registeredMethods : List (String × String) :=
  [("helloworld.Greeter", "SayHello")]

/-- Modelled from the spec: the RPC server's dispatch (spec section 4.2):
"method lookup is by (service, method) pair exact match — no fallback,
unknown methods fail with a not-found status".  A registered pair decodes
the frame and invokes the handler (decode failure yields an
invalid-argument status); an unregistered pair is answered with the
unimplemented ("not found") status without touching the frame. -/
def rpcRoute (service method : String) (body : List (Nat × WireValue)) :
    HandlerId × Except Status (GRPC_Response HelloReply) :=
  if registeredMethods.contains (service, method) then
    (HandlerId.sayHello,
      match decodeHelloRequest body with
      | some req => say_hello MyGreeter.default ⟨req⟩
      | none => Except.error ⟨Code.invalidArgument, "failed to decode request"⟩)
  else
    (HandlerId.unmatched, Except.error ⟨Code.unimplemented, ""⟩)

/-- An inbound connection after protocol classification: either a
structured-RPC call or a plain HTTP request. -/
inductive Inbound where
  | rpc (service method : String) (body : List (Nat × WireValue))
  | http (req : HttpRequest)

/-- Outcome of serving one inbound item: which handler ran and what was
sent back. -/
inductive Outcome where
  | rpcResult (h : HandlerId) (r : Except Status (GRPC_Response HelloReply))
  | httpResult (h : HandlerId) (r : HttpResponse)

/-- Modelled from the spec: the composed listener (spec section 4.4)
classifies each inbound item by protocol — structured-RPC framing versus
plain HTTP — and dispatches it to the RPC server or the HTTP router
accordingly. -/
def composedListener (i : Inbound) : Outcome :=
  match i with
  | Inbound.rpc s m body =>
      let (h, r) := rpcRoute s m body
      Outcome.rpcResult h r
  | Inbound.http req =>
      let (h, r) := routeHttp req
      Outcome.httpResult h r

/-! ## Reflection responder (tonic-reflection library, optional mode;
registration is commented out in src/main.rs lines 11-15) -/

/-- Modelled from the spec: the reflection responder's registry (spec
section 4.2): "when enabled, registers an additional pseudo-service that,
given a service name, returns its embedded schema descriptor bytes
unmodified".  A registry maps registered service names to their
statically-embedded descriptor bytes. -/
structure ReflectionRegistry where
  services : List (String × List Nat)

/-- Modelled from the spec: the reflection list-services query returns the
names of the registered services. -/
def listServices (reg : ReflectionRegistry) : List String :=
  reg.services.map Prod.fst

/-- Modelled from the spec: a descriptor fetch looks the service name up
and returns its embedded descriptor bytes unmodified. -/
def fetchDescriptor (reg : ReflectionRegistry) (name : String) : Option (List Nat) :=
  (reg.services.find? (fun e => e.1 == name)).map Prod.snd

/-- Modelled from the spec: the registry in effect when reflection is
enabled for this server — the one registered Greeter service, paired with
the descriptor bytes that build.rs embeds at build time
(`file_descriptor_set_path(out_dir.join("helloworld_descriptor.bin"))`).
The bytes themselves are a build artifact, so they are a parameter. -/
def reflectionRegistry (descriptor : List Nat) : ReflectionRegistry :=
  ⟨[("helloworld.Greeter", descriptor)]⟩

/-! ## Startup, bind address and binding (src/main.rs `main`) -/

/-- The bind-address literal of `main` (src/main.rs line 43):
`"[::1]:50052".parse().unwrap()`. -/
def bindAddrLiteral : String := "[::1]:50052"

/-- Embedding of how `main` obtains the bind address: it is the fixed
literal; the process environment and command-line arguments are never
consulted (no `env::var`, no `args()` in src/main.rs). -/
def configuredBindAddr (_env : List (String × String)) (_args : List String) :
    String :=
  bindAddrLiteral

/-- Result of the operating system's attempt to bind the configured
address: an input to the startup model. -/
inductive BindOutcome where
  | bound
  | bindError (diagnostic : String)

/-- Observable fate of the process after startup. -/
inductive ProcessOutcome where
  | serving (addr : String)
  | panicExit (code : Nat) (diagnostic : String)
deriving DecidableEq, Repr

/-- Modelled from the spec: startup and binding (spec section 7, "Bind
error ... fatal — process exits immediately with a non-zero status and a
diagnostic message; no retry"; src/main.rs lines 50-53 bind the address
and `.expect("server failed")`).  A Rust panic terminates the process
with exit code 101 and prints the diagnostic; on success the server
serves on the configured address and no other. -/
def mainStartup (os : BindOutcome) : ProcessOutcome :=
  match os with
  | BindOutcome.bound => ProcessOutcome.serving bindAddrLiteral
  | BindOutcome.bindError e =>
      ProcessOutcome.panicExit 101 ("server failed: " ++ e)

/-! ## Socket-address parsing (`"[::1]:50052".parse()`, std library code
not in src/) -/

/-- Numeric value of a hexadecimal digit. -/
def hexVal (c : Char) : Nat :=
  if c.isDigit then c.toNat - 48
  else if 'a' ≤ c ∧ c ≤ 'f' then c.toNat - 87
  else c.toNat - 55

/-- Whether a character is a hexadecimal digit. -/
def isHexDigit (c : Char) : Bool :=
  c.isDigit || ('a' ≤ c && c ≤ 'f') || ('A' ≤ c && c ≤ 'F')

/-- Split a character list on every occurrence of a separator. -/
def splitOnChar (sep : Char) : List Char → List (List Char)
  | [] => [[]]
  | c :: rest =>
      match splitOnChar sep rest with
      | [] => if c = sep then [[], []] else [[c]]
      | h :: t => if c = sep then [] :: h :: t else (c :: h) :: t

/-- Split at the first occurrence of two adjacent colons, if any. -/
def splitDoubleColon : List Char → Option (List Char × List Char)
  | ':' :: ':' :: rest => some ([], rest)
  | c :: rest => (splitDoubleColon rest).map (fun p => (c :: p.1, p.2))
  | [] => none

/-- Split at the first occurrence of a closing bracket followed by a
colon, if any. -/
def splitBracketColon : List Char → Option (List Char × List Char)
  | ']' :: ':' :: rest => some ([], rest)
  | c :: rest => (splitBracketColon rest).map (fun p => (c :: p.1, p.2))
  | [] => none

/-- Modelled from the spec: parsing of one 16-bit IPv6 group (std
`SocketAddr` parsing is library code): one to four hex digits. -/
def parseHexGroup (cs : List Char) : Option Nat :=
  if cs.isEmpty || cs.length > 4 || !cs.all isHexDigit then none
  else some (cs.foldl (fun acc c => acc * 16 + hexVal c) 0)

/-- Parse a colon-separated run of IPv6 groups; the empty list denotes no
groups. -/
def parseGroups (cs : List Char) : Option (List Nat) :=
  if cs.isEmpty then some []
  else (splitOnChar ':' cs).mapM parseHexGroup

/-- Modelled from the spec: IPv6 address parsing as std performs it for
the textual forms used here — eight explicit groups, or a single `::`
eliding a run of zero groups. -/
def parseIpv6 (cs : List Char) : Option (List Nat) :=
  match splitDoubleColon cs with
  | none => do
      let gs ← parseGroups cs
      if gs.length = 8 then some gs else none
  | some (l, r) =>
      if (splitDoubleColon r).isSome then none
      else do
        let ls ← parseGroups l
        let rs ← parseGroups r
        if ls.length + rs.length ≤ 7 then
          some (ls ++ List.replicate (8 - ls.length - rs.length) 0 ++ rs)
        else none

/-- Modelled from the spec: port parsing — one to five decimal digits,
value below 65536. -/
def parsePort (cs : List Char) : Option Nat :=
  if cs.isEmpty || cs.length > 5 || !cs.all Char.isDigit then none
  else
    let n := cs.foldl (fun acc c => acc * 10 + (c.toNat - 48)) 0
    if n < 65536 then some n else none

/-- Modelled from the spec: std `SocketAddr` parsing restricted to the
bracketed-IPv6 form `main` uses, `[address]:port`. -/
def parseSocketAddr (s : String) : Option (List Nat × Nat) :=
  match s.toList with
  | '[' :: rest =>
      match splitBracketColon rest with
      | some (ip, port) => do
          let a ← parseIpv6 ip
          let p ← parsePort port
          some (a, p)
      | none => none
  | _ => none

/-! ## Two concurrent calls (spec section 5: handlers share no mutable
state, so any interleaving gives each call its own reply) -/

/-- Serving two `say_hello` calls on the shared greeter under either
scheduling order: `order = true` runs the first request first.  Because
`MyGreeter` is stateless, this is the whole space of interleavings. -/
def processTwo (order : Bool) (g : MyGreeter)
    (r1 r2 : GRPC_Request HelloRequest) :
    Except Status (GRPC_Response HelloReply) ×
      Except Status (GRPC_Response HelloReply) :=
  if order then
    let a := say_hello g r1
    let b := say_hello g r2
    (a, b)
  else
    let b := say_hello g r2
    let a := say_hello g r1
    (a, b)

/-! ## Helper lemmas -/

/-- Folding the `decodeHelloRequest` step over fields none of which is
field 1 leaves the accumulator unchanged. -/
theorem decode_step_skips (fields : List (Nat × WireValue)) (acc : HelloRequest)
    (h : ∀ f ∈ fields, f.1 ≠ 1) :
    fields.foldlM
      (fun acc f =>
        if f.1 = 1 then
          match f.2 with
          | WireValue.lenBytes s => some (⟨s⟩ : HelloRequest)
          | WireValue.varint _ => none
        else
          some acc)
      acc = some acc := by
  induction fields generalizing acc with
  | nil => rfl
  | cons f rest ih =>
      have hf : f.1 ≠ 1 := h f (List.mem_cons_self f rest)
      simp only [List.foldlM, if_neg hf, Option.bind]
      exact ih acc (fun g hg => h g (List.mem_cons_of_mem f hg))

end AxumTonic

namespace AxumTonic

/-! ## Claims -/

/-- C1: For every string s (including the empty string), `say_hello`
applied to a `HelloRequest` with name = s succeeds, and the returned
`HelloReply` has message equal to "Hello " ++ s ++ "!". -/
theorem C1_say_hello_message (g : MyGreeter) (s : String) :
    say_hello g ⟨⟨s⟩⟩ = Except.ok ⟨⟨"Hello " ++ s ++ "!"⟩⟩ :=
  rfl

/-- C2: `say_hello` always succeeds — for every request (any name,
including empty) the result is `ok` with a reply, and the error branch
(`Status`) is never returned. -/
theorem C2_say_hello_total (g : MyGreeter) (req : GRPC_Request HelloRequest) :
    (∃ reply, say_hello g req = Except.ok reply) ∧
      ∀ st : Status, say_hello g req ≠ Except.error st := by
  refine ⟨⟨_, rfl⟩, fun st h => ?_⟩
  simp [say_hello] at h

/-- C3: Every inbound HTTP request with method GET and path "/",
regardless of query parameters or headers, is dispatched to the HTML
handler and answered with status 200, media type text/html and body
exactly the literal "<h1>Hello, World!</h1>". -/
theorem C3_get_root (query : String) (headers : List (String × String)) :
    ∃ resp : HttpResponse,
      composedListener (Inbound.http ⟨"GET", "/", query, headers⟩) =
          Outcome.httpResult HandlerId.htmlRoot resp ∧
        resp.status = 200 ∧
        resp.contentType.map mediaType = some "text/html" ∧
        resp.body = "<h1>Hello, World!</h1>" :=
  ⟨handler.intoResponse, rfl, rfl, by decide, rfl⟩

/-- C4: When reflection is enabled with the Greeter registered against
the (non-empty) descriptor bytes embedded at build time, a list-services
query returns a set containing the Greeter service name, and a descriptor
fetch for that service returns non-empty bytes identical to the embedded
descriptor. -/
theorem C4_reflection (d : List Nat) (hd : d ≠ []) :
    "helloworld.Greeter" ∈ listServices (reflectionRegistry d) ∧
      fetchDescriptor (reflectionRegistry d) "helloworld.Greeter" = some d ∧
      ∀ b, fetchDescriptor (reflectionRegistry d) "helloworld.Greeter" = some b →
        b ≠ [] := by
  refine ⟨?_, rfl, fun b hb => ?_⟩
  · simp [listServices, reflectionRegistry]
  · have hbd : b = d := by
      simpa [fetchDescriptor, reflectionRegistry] using hb.symm
    exact hbd ▸ hd

/-- Witness for C4 at the concrete descriptor [1]. -/
theorem C4_reflection_witness :
    ([1] : List Nat) ≠ [] ∧
      ("helloworld.Greeter" ∈ listServices (reflectionRegistry [1]) ∧
        fetchDescriptor (reflectionRegistry [1]) "helloworld.Greeter" = some [1] ∧
        ∀ b, fetchDescriptor (reflectionRegistry [1]) "helloworld.Greeter" = some b →
          b ≠ []) :=
  ⟨by decide, C4_reflection [1] (by decide)⟩

/-- C5: Every RPC call naming a (service, method) pair other than the one
registered pair (helloworld.Greeter, SayHello) is answered with the
unimplemented ("not found") status, whatever the request frame holds: no
decode error is returned and a response is always produced. -/
theorem C5_unregistered_method (service method : String)
    (body : List (Nat × WireValue))
    (h : (service, method) ≠ ("helloworld.Greeter", "SayHello")) :
    composedListener (Inbound.rpc service method body) =
      Outcome.rpcResult HandlerId.unmatched
        (Except.error ⟨Code.unimplemented, ""⟩) := by
  have hm : (service, method) ∉ registeredMethods := by
    simpa [registeredMethods, Prod.ext_iff] using h
  simp [composedListener, rpcRoute, hm]

/-- Witness for C5 at the unregistered method SayGoodbye. -/
theorem C5_unregistered_method_witness :
    (("helloworld.Greeter", "SayGoodbye") : String × String) ≠
        ("helloworld.Greeter", "SayHello") ∧
      composedListener (Inbound.rpc "helloworld.Greeter" "SayGoodbye" []) =
        Outcome.rpcResult HandlerId.unmatched
          (Except.error ⟨Code.unimplemented, ""⟩) :=
  ⟨by decide, C5_unregistered_method "helloworld.Greeter" "SayGoodbye" [] (by decide)⟩

/-- C6: Every inbound HTTP request whose (method, path) pair matches no
entry of the static route table — the only entry being GET "/" — receives
the standard not-found response, and the request is not dispatched to the
SayHello handler. -/
theorem C6_unmatched_http (req : HttpRequest)
    (h : ¬(req.method = "GET" ∧ req.path = "/")) :
    composedListener (Inbound.http req) =
        Outcome.httpResult HandlerId.unmatched notFoundResponse ∧
      (routeHttp req).1 ≠ HandlerId.sayHello := by
  have hr : routeHttp req = (HandlerId.unmatched, notFoundResponse) := by
    simp [routeHttp, if_neg h]
  refine ⟨?_, ?_⟩
  · simp [composedListener, hr]
  · simp [hr]

/-- Witness for C6 at POST /nope. -/
theorem C6_unmatched_http_witness :
    ¬(("POST" : String) = "GET" ∧ ("/nope" : String) = "/") ∧
      (composedListener (Inbound.http ⟨"POST", "/nope", "", []⟩) =
          Outcome.httpResult HandlerId.unmatched notFoundResponse ∧
        (routeHttp ⟨"POST", "/nope", "", []⟩).1 ≠ HandlerId.sayHello) :=
  ⟨by decide, C6_unmatched_http ⟨"POST", "/nope", "", []⟩ (by decide)⟩

/-- C7: If the configured bind address cannot be acquired at startup, the
process exits with a non-zero status and a diagnostic message, and it
never serves (on the configured address or any other). -/
theorem C7_bind_error_fatal (e : String) :
    (∃ c d, mainStartup (BindOutcome.bindError e) =
        ProcessOutcome.panicExit c d ∧ c ≠ 0) ∧
      ∀ a, mainStartup (BindOutcome.bindError e) ≠ ProcessOutcome.serving a := by
  refine ⟨⟨101, "server failed: " ++ e, rfl, by decide⟩, fun a h => ?_⟩
  simp [mainStartup] at h

/-- C8: Two `say_hello` calls with names a and b, run on the shared
stateless greeter in either scheduling order, each receive their own
correctly-correlated reply — "Hello a!" and "Hello b!" respectively,
never swapped. -/
theorem C8_no_crosstalk (order : Bool) (g : MyGreeter) (a b : String) :
    processTwo order g ⟨⟨a⟩⟩ ⟨⟨b⟩⟩ =
      (Except.ok ⟨⟨"Hello " ++ a ++ "!"⟩⟩,
        Except.ok ⟨⟨"Hello " ++ b ++ "!"⟩⟩) := by
  cases order <;> rfl

/-- C9: A request frame with no occurrence of field 1 (the name field
absent on the wire) decodes to a `HelloRequest` whose name is the empty
string, and `say_hello` on that request returns message "Hello !". -/
theorem C9_absent_name (fields : List (Nat × WireValue))
    (h : ∀ f ∈ fields, f.1 ≠ 1) :
    decodeHelloRequest fields = some ⟨""⟩ ∧
      say_hello MyGreeter.default ⟨⟨""⟩⟩ = Except.ok ⟨⟨"Hello !"⟩⟩ :=
  ⟨decode_step_skips fields ⟨""⟩ h, rfl⟩

/-- Witness for C9 at the empty frame. -/
theorem C9_absent_name_witness :
    (∀ f ∈ ([] : List (Nat × WireValue)), f.1 ≠ 1) ∧
      (decodeHelloRequest [] = some ⟨""⟩ ∧
        say_hello MyGreeter.default ⟨⟨""⟩⟩ = Except.ok ⟨⟨"Hello !"⟩⟩) :=
  ⟨fun f hf => absurd hf (List.not_mem_nil f), C9_absent_name [] (fun f hf => absurd hf (List.not_mem_nil f))⟩

/-- C10: The bind address is the fixed literal "[::1]:50052"; parsing it
succeeds (yielding the IPv6 loopback with port 50052, so the `unwrap`
never panics), and the configured address is the same whatever the
environment and command-line arguments are. -/
theorem C10_fixed_bind_addr :
    parseSocketAddr bindAddrLiteral = some ([0, 0, 0, 0, 0, 0, 0, 1], 50052) ∧
      ∀ env args, configuredBindAddr env args = bindAddrLiteral :=
  ⟨by decide, fun _ _ => rfl⟩

end AxumTonic
